import Mathlib

/-!
Shallow embedding of src/dot-options-cursor.js: five factory functions
producing map-marker objects ("pulsing dots"), each with a fixed 75×75 RGBA
pixel buffer, an optional onAdd setup hook and a throttled render hook.

Modelling conventions:
* timestamps (performance.now()) and color components are exact rationals;
* a marker object's mutable fields become a state structure, and render
  becomes a pure function from state and the clock value(s) read during the
  call to a RenderOut record (new state, returned boolean, whether
  mapbox.triggerRepaint() was called, and the canvas draw calls issued);
* 2d-canvas rasterization (arc antialiasing etc.) is an external
  collaborator: it is abstracted as a parameter getImageData mapping the
  list of draw calls to a pixel function on Fin bufLen, reflecting that
  getImageData(0, 0, width, height).data always has width*height*4 entries;
* Math.sin is modelled as Real.sin, and the Uint8ClampedArray store
  data[i] = data[i] * opacity as clamping to [0, 255] with round-half-even.
-/

namespace PulsingDot

/-- Byte length of the RGBA pixel buffer: width * height * 4 with
width = height = size = 75 in every variant. -/
def bufLen : ℕ := 75 * 75 * 4

/-- An rgba(r, g, b, a) CSS color literal, components as exact rationals. -/
structure RGBA where
  r : ℚ
  g : ℚ
  b : ℚ
  a : ℚ
  deriving DecidableEq

/-- The per-variant color record: outer / inner fill styles and the stroke
style for the inner circle. -/
structure ColorTriple where
  outer : RGBA
  inner : RGBA
  stroke : RGBA
  deriving DecidableEq

/-- Color selection of createLowFrameRatePulsingDot.render (lines 81-85):
isGrey picks the grey triple, otherwise isCarrierVehicleOnRoute picks the
green triple, otherwise the red default. -/
def lowFrameRateColors (isGrey isCarrierVehicleOnRoute : Bool) : ColorTriple :=
  if isGrey then
    ⟨⟨55, 64, 83, 0.6⟩, ⟨55, 64, 83, 1⟩, ⟨237, 240, 240, 0.7⟩⟩
  else if isCarrierVehicleOnRoute then
    ⟨⟨84, 199, 116, 0.6⟩, ⟨84, 199, 116, 1⟩, ⟨84, 199, 116, 1⟩⟩
  else
    ⟨⟨219, 55, 19, 0.6⟩, ⟨219, 55, 19, 1⟩, ⟨237, 240, 240, 0.7⟩⟩

/-- Color selection of createPreRenderedPulsingDot (lines 124-128), computed
once at factory time; textually identical to the low-frame-rate table. -/
def preRenderedColors (isGrey isCarrierVehicleOnRoute : Bool) : ColorTriple :=
  if isGrey then
    ⟨⟨55, 64, 83, 0.6⟩, ⟨55, 64, 83, 1⟩, ⟨237, 240, 240, 0.7⟩⟩
  else if isCarrierVehicleOnRoute then
    ⟨⟨84, 199, 116, 0.6⟩, ⟨84, 199, 116, 1⟩, ⟨84, 199, 116, 1⟩⟩
  else
    ⟨⟨219, 55, 19, 0.6⟩, ⟨219, 55, 19, 1⟩, ⟨237, 240, 240, 0.7⟩⟩

/-- Color selection of createOpacityPulsingDot.onAdd (lines 221-225): same
precedence, but the outer fills are drawn with alpha 1 (the pulsing is done
later by scaling the alpha channel). -/
def opacityColors (isGrey isCarrierVehicleOnRoute : Bool) : ColorTriple :=
  if isGrey then
    ⟨⟨55, 64, 83, 1⟩, ⟨55, 64, 83, 1⟩, ⟨237, 240, 240, 0.7⟩⟩
  else if isCarrierVehicleOnRoute then
    ⟨⟨84, 199, 116, 1⟩, ⟨84, 199, 116, 1⟩, ⟨84, 199, 116, 1⟩⟩
  else
    ⟨⟨219, 55, 19, 1⟩, ⟨219, 55, 19, 1⟩, ⟨237, 240, 240, 0.7⟩⟩

/-- JavaScript remainder a % b for the case used in the source
(a = performance.now() ≥ 0 and b = 2000 > 0). -/
def jsMod (a b : ℚ) : ℚ := a - b * ⌊a / b⌋

/-- Animation phase t = (performance.now() % duration) / duration with
duration = 2000, as computed in the low-frame-rate and opacity renders. -/
def pulsePhase (now : ℚ) : ℚ := jsMod now 2000 / 2000

/-- Model of Number.prototype.toFixed(2), used to build the faded outer
alpha string (0.6 - t).toFixed(2): rounding to two decimal places. -/
def toFixed2 (x : ℚ) : ℚ := round (x * 100) / 100

/-- Canvas draw calls issued during a render or onAdd: a clearRect, or a
beginPath/arc(cx, cy, radius, 0, 2π) followed by fill() or stroke() with the
recorded style. -/
inductive DrawOp where
  | clearRect (w h : ℚ)
  | fillCircle (cx cy radius : ℚ) (style : RGBA)
  | strokeCircle (cx cy radius : ℚ) (style : RGBA) (lineWidth : ℚ)
  deriving DecidableEq

/-- Result of one render() call: the updated marker state, the returned
boolean, whether mapbox.triggerRepaint() was invoked, and the canvas draw
calls issued during the call. -/
structure RenderOut (σ : Type) where
  state : σ
  changed : Bool
  repaint : Bool
  ops : List DrawOp

/-- JavaScript runtime errors thrown by the modelled code. -/
inductive JsErr where
  | referenceError (name : String)
  deriving DecidableEq

/-! ## Option 1: createStaticPulsingDot (lines 15-27) -/

/-- Marker object of the static variant: just the fixed dimensions and the
pixel buffer (it has no other mutable fields and no onAdd). -/
structure StaticDot where
  width : ℕ
  height : ℕ
  data : List ℕ
  deriving DecidableEq

/-- Factory of the static variant: a 75×75 marker whose buffer is the fresh
all-zero Uint8Array of size*size*4 bytes. -/
def createStaticPulsingDot (_isCarrierVehicleOnRoute _isGrey : Bool) : StaticDot :=
  { width := 75, height := 75, data := List.replicate bufLen 0 }

/-- render() of the static variant: returns false and touches nothing. -/
def staticRender (d : StaticDot) : RenderOut StaticDot :=
  { state := d, changed := false, repaint := false, ops := [] }

/-- Iterated render() calls on the static variant (any call sequence is the
same because staticRender reads no clock and takes no input). -/
def staticRenderSteps (d : StaticDot) : ℕ → StaticDot
  | 0 => d
  | k + 1 => staticRenderSteps (staticRender d).state k

/-! ## Option 2: createLowFrameRatePulsingDot (lines 35-109) -/

/-- Mutable state of the low-frame-rate marker: the closure variable
lastUpdate plus the object fields read or written by render(). -/
structure LFRDot where
  lastUpdate : ℚ
  data : List ℕ
  isCarrierVehicleOnRoute : Bool
  isGrey : Bool
  stopPulse : Bool
  deriving DecidableEq

/-- Factory of the low-frame-rate variant (updateInterval = 100 ms is kept
as the literal 100 in lfrRender). -/
def createLowFrameRatePulsingDot (isCarrierVehicleOnRoute isGrey : Bool) : LFRDot :=
  { lastUpdate := 0
    data := List.replicate bufLen 0
    isCarrierVehicleOnRoute := isCarrierVehicleOnRoute
    isGrey := isGrey
    stopPulse := false }

/-- Draw calls of an admitted low-frame-rate render (lines 66-99):
clearRect, the outer circle filled with the faded (or, under stopPulse, the
fixed fully transparent rgba(219, 55, 19, 0)) style, then the inner circle
filled and stroked.  The string rewrite colors.outer.replace, which swaps
the substring 0.6 for (0.6 - t).toFixed(2), is modelled as replacing the
alpha component: for all three outer colors the only occurrence of 0.6 in
the rgba literal is the alpha. -/
def lfrOps (stop : Bool) (t : ℚ) (c : ColorTriple) : List DrawOp :=
  let radius : ℚ := (75 / 2) * 0.3
  let outerRadius : ℚ := (75 / 2) * 0.7 * t + radius
  let outerStyle : RGBA :=
    if stop then ⟨219, 55, 19, 0⟩ else { c.outer with a := toFixed2 (0.6 - t) }
  [DrawOp.clearRect 75 75,
   DrawOp.fillCircle (75 / 2) (75 / 2) outerRadius outerStyle,
   DrawOp.fillCircle (75 / 2) (75 / 2) radius c.inner,
   DrawOp.strokeCircle (75 / 2) (75 / 2) radius c.stroke 2]

/-- onAdd of the low-frame-rate variant (lines 49-54): it only creates the
backing canvas and stores its 2d context in this.context; none of the
modelled fields change. -/
def lfrOnAdd (d : LFRDot) : LFRDot := d

/-- render() of the low-frame-rate variant (lines 56-107).  The source reads
performance.now() twice (once for the gate, once for the phase), so the two
clock values are separate arguments now and tNow.  getImageData abstracts
the canvas rasterizer: the pixels produced by executing the draw calls. -/
def lfrRender (getImageData : List DrawOp → Fin bufLen → ℕ)
    (d : LFRDot) (now tNow : ℚ) : RenderOut LFRDot :=
  if now - d.lastUpdate < 100 then
    { state := d, changed := false, repaint := false, ops := [] }
  else
    let t := pulsePhase tNow
    let c := lowFrameRateColors d.isGrey d.isCarrierVehicleOnRoute
    let ops := lfrOps d.stopPulse t c
    { state := { d with lastUpdate := now, data := List.ofFn (getImageData ops) }
      changed := true
      repaint := true
      ops := ops }

/-! ## Option 3: createPreRenderedPulsingDot (lines 117-189) -/

/-- Mutable state of the pre-rendered marker: closure variables currentFrame
and lastUpdate plus the object fields.  preRenderedFrames is none before
onAdd runs (the field is initialized to null). -/
structure PreDot where
  lastUpdate : ℚ
  currentFrame : ℕ
  data : List ℕ
  preRenderedFrames : Option (List (List ℕ))
  isCarrierVehicleOnRoute : Bool
  isGrey : Bool
  stopPulse : Bool
  deriving DecidableEq

/-- Number of pre-rendered animation frames (frameCount = 20). -/
def frameCount : ℕ := 20

/-- Factory of the pre-rendered variant (frameInterval = 100 ms is kept as
the literal 100 in preRender). -/
def createPreRenderedPulsingDot (isCarrierVehicleOnRoute isGrey : Bool) : PreDot :=
  { lastUpdate := 0
    currentFrame := 0
    data := List.replicate bufLen 0
    preRenderedFrames := none
    isCarrierVehicleOnRoute := isCarrierVehicleOnRoute
    isGrey := isGrey
    stopPulse := false }

/-- onAdd of the pre-rendered variant (lines 140-171), as the source
executes: after creating the canvas, storing the 2d context in this.context
and resetting this.preRenderedFrames to the empty array, the pre-render loop
body refers to the bare identifier context, which is not defined in any
enclosing scope (the context was stored in this.context), so the first
iteration throws a ReferenceError at context.clearRect before any frame is
drawn or pushed.  (Independently, the template literal on line 156 closes
the interpolation before closing the argument list of replace, a misplaced
parenthesis that makes the file a JavaScript SyntaxError as written; the
dynamic model here reads the evident intended tokens and still fails on the
undefined context.)  The pair returned is the mutated state together with
the error thrown. -/
def preOnAdd (d : PreDot) : PreDot × Option JsErr :=
  ({ d with preRenderedFrames := some [] }, some (JsErr.referenceError "context"))

/-- render() of the pre-rendered variant (lines 173-187): the 100 ms gate,
then — note lastUpdate is advanced even when the frame list is missing or
empty — a pure lookup of preRenderedFrames[currentFrame] (an out-of-range
index would yield undefined in JavaScript; it is modelled with default [],
and currentFrame stays in range whenever it starts in range) and the index
advances by one modulo the frame count.  stopPulse is never consulted. -/
def preRender (d : PreDot) (now : ℚ) : RenderOut PreDot :=
  if now - d.lastUpdate < 100 then
    { state := d, changed := false, repaint := false, ops := [] }
  else
    match d.preRenderedFrames with
    | some frames =>
      if 0 < frames.length then
        { state := { d with lastUpdate := now
                            data := frames.getD d.currentFrame []
                            currentFrame := (d.currentFrame + 1) % frames.length }
          changed := true
          repaint := true
          ops := [] }
      else
        { state := { d with lastUpdate := now }, changed := false, repaint := false, ops := [] }
    | none =>
      { state := { d with lastUpdate := now }, changed := false, repaint := false, ops := [] }

/-- A run of k render() calls on the pre-rendered variant in which every
call is admitted by the gate: each call happens exactly one frameInterval
(100 ms) after the previous accepted tick. -/
def preRenderSteps (d : PreDot) : ℕ → PreDot
  | 0 => d
  | k + 1 => preRenderSteps (preRender d (d.lastUpdate + 100)).state k

/-! ## Option 4: createOpacityPulsingDot (lines 197-271) -/

/-- Mutable state of the opacity marker.  canvas is the pixel state of the
backing 2d canvas, the array that this.context.getImageData(0, 0, width,
height).data returns (always width*height*4 entries per the ImageData
contract); render() reads it afresh every admitted tick and never writes the
canvas back (there is no putImageData call). -/
structure OpacityDot where
  lastUpdate : ℚ
  data : List ℕ
  canvas : Fin bufLen → ℕ
  isCarrierVehicleOnRoute : Bool
  isGrey : Bool
  stopPulse : Bool

/-- Factory of the opacity variant (updateInterval = 50 ms is kept as the
literal 50 in opacityRender).  Before onAdd there is no canvas at all; the
canvas component is taken all-zero, matching the fresh canvas onAdd
creates. -/
def createOpacityPulsingDot (isCarrierVehicleOnRoute isGrey : Bool) : OpacityDot :=
  { lastUpdate := 0
    data := List.replicate bufLen 0
    canvas := fun _ => 0
    isCarrierVehicleOnRoute := isCarrierVehicleOnRoute
    isGrey := isGrey
    stopPulse := false }

/-- onAdd of the opacity variant (lines 211-241), as the source executes:
a fresh (fully transparent, all-zero) canvas is created and its 2d context
stored in this.context, but the circle-drawing statements then refer to the
bare undefined identifier context (the context is in this.context), so
onAdd throws a ReferenceError at context.beginPath and the canvas keeps its
blank all-zero pixels. -/
def opacityOnAdd (d : OpacityDot) : OpacityDot × Option JsErr :=
  ({ d with canvas := fun _ => 0 }, some (JsErr.referenceError "context"))

/-- Round half to even on the reals: the rounding a JavaScript
Uint8ClampedArray store applies to an in-range value. -/
noncomputable def roundHalfEven (x : ℝ) : ℤ :=
  if x - ⌊x⌋ < 1 / 2 then ⌊x⌋
  else if 1 / 2 < x - ⌊x⌋ then ⌊x⌋ + 1
  else if Even ⌊x⌋ then ⌊x⌋ else ⌊x⌋ + 1

/-- Semantics of storing a number into a Uint8ClampedArray cell
(data[i] = data[i] * opacity): clamp to [0, 255] and round half to even. -/
noncomputable def jsClampU8 (x : ℝ) : ℕ :=
  if x ≤ 0 then 0
  else if 255 ≤ x then 255
  else (roundHalfEven x).toNat

/-- Sine-wave opacity factor 0.3 + 0.7 * Math.sin(t * Math.PI) of line 256,
with Math.sin modelled as Real.sin. -/
noncomputable def opacityValue (t : ℚ) : ℝ := 0.3 + 0.7 * Real.sin (t * Real.pi)

/-- Effect of the scaling loop for (let i = 3; i < data.length; i += 4)
data[i] = data[i] * opacity on the pixels read from the canvas: exactly the
indices congruent to 3 mod 4 (the alpha bytes) are scaled and re-clamped,
all other bytes pass through. -/
noncomputable def applyOpacityFn (canvas : Fin bufLen → ℕ) (opacity : ℝ) : Fin bufLen → ℕ :=
  fun i => if (i : ℕ) % 4 = 3 then jsClampU8 ((canvas i : ℝ) * opacity) else canvas i

/-- render() of the opacity variant (lines 243-269): the 50 ms gate (which
advances lastUpdate on every admitted call), then the stopPulse early
return, then the alpha scaling of the freshly read canvas pixels.  The
source reads performance.now() twice, hence the two clock arguments. -/
noncomputable def opacityRender (d : OpacityDot) (now tNow : ℚ) : RenderOut OpacityDot :=
  if now - d.lastUpdate < 50 then
    { state := d, changed := false, repaint := false, ops := [] }
  else if d.stopPulse then
    { state := { d with lastUpdate := now }, changed := false, repaint := false, ops := [] }
  else
    { state := { d with lastUpdate := now
                        data := List.ofFn (applyOpacityFn d.canvas (opacityValue (pulsePhase tNow))) }
      changed := true
      repaint := true
      ops := [] }

/-! ## Option 5: createCSSPulsingDot (lines 279-307) -/

/-- Marker object of the CSS variant: like the static variant, its buffer
never changes and render always returns false (the animation would be done
by CSS on an HTML overlay). -/
structure CSSDot where
  width : ℕ
  height : ℕ
  data : List ℕ
  deriving DecidableEq

/-- Factory of the CSS variant. -/
def createCSSPulsingDot (_isCarrierVehicleOnRoute _isGrey : Bool) : CSSDot :=
  { width := 75, height := 75, data := List.replicate bufLen 0 }

/-- render() of the CSS variant: returns false, touches nothing. -/
def cssRender (d : CSSDot) : RenderOut CSSDot :=
  { state := d, changed := false, repaint := false, ops := [] }


/-! ## Branch equations for the render functions -/

/-- Throttled low-frame-rate render: gate rejects, nothing happens. -/
theorem lfrRender_throttled (getImageData : List DrawOp → Fin bufLen → ℕ)
    (d : LFRDot) (now tNow : ℚ) (h : now - d.lastUpdate < 100) :
    lfrRender getImageData d now tNow = ⟨d, false, false, []⟩ := by
  unfold lfrRender
  rw [if_pos h]

/-- Admitted low-frame-rate render: full redraw, repaint, returns true. -/
theorem lfrRender_admitted (getImageData : List DrawOp → Fin bufLen → ℕ)
    (d : LFRDot) (now tNow : ℚ) (h : ¬ now - d.lastUpdate < 100) :
    lfrRender getImageData d now tNow =
      { state := { d with
          lastUpdate := now
          data := List.ofFn (getImageData (lfrOps d.stopPulse (pulsePhase tNow)
            (lowFrameRateColors d.isGrey d.isCarrierVehicleOnRoute))) }
        changed := true
        repaint := true
        ops := lfrOps d.stopPulse (pulsePhase tNow)
          (lowFrameRateColors d.isGrey d.isCarrierVehicleOnRoute) } := by
  unfold lfrRender
  rw [if_neg h]

/-- Throttled pre-rendered render: gate rejects, nothing happens. -/
theorem preRender_throttled (d : PreDot) (now : ℚ) (h : now - d.lastUpdate < 100) :
    preRender d now = ⟨d, false, false, []⟩ := by
  unfold preRender
  rw [if_pos h]

/-- Admitted pre-rendered render before onAdd (frame list still null):
lastUpdate advances but nothing else happens and false is returned. -/
theorem preRender_noFrames (d : PreDot) (now : ℚ) (h : ¬ now - d.lastUpdate < 100)
    (hf : d.preRenderedFrames = none) :
    preRender d now = ⟨{ d with lastUpdate := now }, false, false, []⟩ := by
  unfold preRender
  rw [if_neg h, hf]

/-- Admitted pre-rendered render with an empty frame list: lastUpdate
advances but nothing else happens and false is returned. -/
theorem preRender_emptyFrames (d : PreDot) (now : ℚ) (fs : List (List ℕ))
    (h : ¬ now - d.lastUpdate < 100) (hf : d.preRenderedFrames = some fs)
    (hl : ¬ 0 < fs.length) :
    preRender d now = ⟨{ d with lastUpdate := now }, false, false, []⟩ := by
  unfold preRender
  rw [if_neg h, hf]
  exact if_neg hl

/-- Admitted pre-rendered render with frames available: the frame at
currentFrame becomes data and the index advances by one modulo the frame
count. -/
theorem preRender_cycle (d : PreDot) (now : ℚ) (fs : List (List ℕ))
    (h : ¬ now - d.lastUpdate < 100) (hf : d.preRenderedFrames = some fs)
    (hl : 0 < fs.length) :
    preRender d now =
      { state := { d with
          lastUpdate := now
          data := fs.getD d.currentFrame []
          currentFrame := (d.currentFrame + 1) % fs.length }
        changed := true
        repaint := true
        ops := [] } := by
  unfold preRender
  rw [if_neg h, hf]
  exact if_pos hl

/-- Throttled opacity render: gate rejects, nothing happens. -/
theorem opacityRender_throttled (d : OpacityDot) (now tNow : ℚ)
    (h : now - d.lastUpdate < 50) :
    opacityRender d now tNow = ⟨d, false, false, []⟩ := by
  unfold opacityRender
  rw [if_pos h]

/-- Admitted opacity render with stopPulse set: lastUpdate advances but
nothing else happens and false is returned. -/
theorem opacityRender_stopped (d : OpacityDot) (now tNow : ℚ)
    (h : ¬ now - d.lastUpdate < 50) (hs : d.stopPulse = true) :
    opacityRender d now tNow = ⟨{ d with lastUpdate := now }, false, false, []⟩ := by
  unfold opacityRender
  rw [if_neg h, if_pos hs]

/-- Admitted opacity render with stopPulse clear: the canvas pixels are
re-read, their alpha bytes scaled, and true is returned. -/
theorem opacityRender_active (d : OpacityDot) (now tNow : ℚ)
    (h : ¬ now - d.lastUpdate < 50) (hs : d.stopPulse = false) :
    opacityRender d now tNow =
      { state := { d with
          lastUpdate := now
          data := List.ofFn (applyOpacityFn d.canvas (opacityValue (pulsePhase tNow))) }
        changed := true
        repaint := true
        ops := [] } := by
  unfold opacityRender
  rw [if_neg h, if_neg (by simp [hs])]

/-- An admitted low-frame-rate render stores the gate clock in lastUpdate. -/
theorem lfrRender_state_lastUpdate (getImageData : List DrawOp → Fin bufLen → ℕ)
    (d : LFRDot) (now tNow : ℚ) (h : ¬ now - d.lastUpdate < 100) :
    (lfrRender getImageData d now tNow).state.lastUpdate = now := by
  rw [lfrRender_admitted getImageData d now tNow h]

/-- An admitted pre-rendered render stores the gate clock in lastUpdate, in
all three of its branches. -/
theorem preRender_state_lastUpdate (d : PreDot) (now : ℚ)
    (h : ¬ now - d.lastUpdate < 100) :
    (preRender d now).state.lastUpdate = now := by
  cases hf : d.preRenderedFrames with
  | none => rw [preRender_noFrames d now h hf]
  | some fs =>
    by_cases hl : 0 < fs.length
    · rw [preRender_cycle d now fs h hf hl]
    · rw [preRender_emptyFrames d now fs h hf hl]

/-- An admitted opacity render stores the gate clock in lastUpdate, whether
or not stopPulse is set. -/
theorem opacityRender_state_lastUpdate (d : OpacityDot) (now tNow : ℚ)
    (h : ¬ now - d.lastUpdate < 50) :
    (opacityRender d now tNow).state.lastUpdate = now := by
  cases hs : d.stopPulse
  · rw [opacityRender_active d now tNow h hs]
  · rw [opacityRender_stopped d now tNow h hs]

/-! ## Claim theorems -/

/-- C8: for the static variant, the data buffer is never modified after
construction (it stays the all-zero width*height*4 buffer), and every call
to render(), for any call sequence, returns false and leaves the marker
untouched. -/
theorem C8_static_variant (isCarrierVehicleOnRoute isGrey : Bool) (k : ℕ) :
    (createStaticPulsingDot isCarrierVehicleOnRoute isGrey).data = List.replicate bufLen 0 ∧
    staticRenderSteps (createStaticPulsingDot isCarrierVehicleOnRoute isGrey) k
      = createStaticPulsingDot isCarrierVehicleOnRoute isGrey ∧
    (∀ d : StaticDot, (staticRender d).changed = false ∧ (staticRender d).state = d) := by
  refine ⟨rfl, ?_, fun d => ⟨rfl, rfl⟩⟩
  induction k with
  | zero => rfl
  | succ n ih => exact ih

/-- C6: in each of the three color-selecting variants, the grey flag forces
the grey triple regardless of the route-active flag; otherwise the
route-active flag picks the green triple; otherwise the red default is
used. -/
theorem C6_color_precedence :
    (∀ r : Bool, lowFrameRateColors true r
      = ⟨⟨55, 64, 83, 0.6⟩, ⟨55, 64, 83, 1⟩, ⟨237, 240, 240, 0.7⟩⟩) ∧
    lowFrameRateColors false true
      = ⟨⟨84, 199, 116, 0.6⟩, ⟨84, 199, 116, 1⟩, ⟨84, 199, 116, 1⟩⟩ ∧
    lowFrameRateColors false false
      = ⟨⟨219, 55, 19, 0.6⟩, ⟨219, 55, 19, 1⟩, ⟨237, 240, 240, 0.7⟩⟩ ∧
    (∀ r : Bool, preRenderedColors true r
      = ⟨⟨55, 64, 83, 0.6⟩, ⟨55, 64, 83, 1⟩, ⟨237, 240, 240, 0.7⟩⟩) ∧
    preRenderedColors false true
      = ⟨⟨84, 199, 116, 0.6⟩, ⟨84, 199, 116, 1⟩, ⟨84, 199, 116, 1⟩⟩ ∧
    preRenderedColors false false
      = ⟨⟨219, 55, 19, 0.6⟩, ⟨219, 55, 19, 1⟩, ⟨237, 240, 240, 0.7⟩⟩ ∧
    (∀ r : Bool, opacityColors true r
      = ⟨⟨55, 64, 83, 1⟩, ⟨55, 64, 83, 1⟩, ⟨237, 240, 240, 0.7⟩⟩) ∧
    opacityColors false true
      = ⟨⟨84, 199, 116, 1⟩, ⟨84, 199, 116, 1⟩, ⟨84, 199, 116, 1⟩⟩ ∧
    opacityColors false false
      = ⟨⟨219, 55, 19, 1⟩, ⟨219, 55, 19, 1⟩, ⟨237, 240, 240, 0.7⟩⟩ :=
  ⟨fun r => by cases r <;> rfl, rfl, rfl,
   fun r => by cases r <;> rfl, rfl, rfl,
   fun r => by cases r <;> rfl, rfl, rfl⟩

/-- C4 (code bug): onAdd of the pre-rendered variant does not complete with
frameCount pre-rendered frames; it throws a ReferenceError on the undefined
identifier context and leaves preRenderedFrames as the empty array, so the
state it produces holds no frame at all. -/
theorem C4_preRendered_onAdd_fails (isCarrierVehicleOnRoute isGrey : Bool) :
    (preOnAdd (createPreRenderedPulsingDot isCarrierVehicleOnRoute isGrey)).2
      = some (JsErr.referenceError "context") ∧
    (preOnAdd (createPreRenderedPulsingDot isCarrierVehicleOnRoute isGrey)).1.preRenderedFrames
      = some [] ∧
    ∀ fs, (preOnAdd (createPreRenderedPulsingDot isCarrierVehicleOnRoute isGrey)).1.preRenderedFrames
        = some fs → fs.length ≠ frameCount := by
  refine ⟨rfl, rfl, fun fs h => ?_⟩
  have hfs : fs = [] := by simpa [preOnAdd] using h
  simp [hfs, frameCount]

/-- C4 witness: concrete evaluation at both flags false. -/
theorem C4_preRendered_onAdd_fails_witness :
    (preOnAdd (createPreRenderedPulsingDot false false)).1.preRenderedFrames = some [] ∧
    ([] : List (List ℕ)).length ≠ frameCount :=
  ⟨(C4_preRendered_onAdd_fails false false).2.1,
   (C4_preRendered_onAdd_fails false false).2.2 []
     (C4_preRendered_onAdd_fails false false).2.1⟩

/-- C1 counterexample: the claim's rider that any two render() calls within
the throttle interval make the second return false is refuted on the
opacity variant right after construction: calls 1 ms apart at clock values
49 and 50 (interval 50 ms, initial lastUpdate 0) have the first throttled
and the second admitted and returning true. -/
theorem C1_counterexample :
    ((50 : ℚ) - 49 < 50) ∧
    (opacityRender (createOpacityPulsingDot false false) 49 49).changed = false ∧
    (opacityRender
        (opacityRender (createOpacityPulsingDot false false) 49 49).state 50 50).changed
      = true := by
  have h1 : opacityRender (createOpacityPulsingDot false false) 49 49
      = ⟨createOpacityPulsingDot false false, false, false, []⟩ :=
    opacityRender_throttled _ _ _ (by norm_num [createOpacityPulsingDot])
  refine ⟨by norm_num, by rw [h1], ?_⟩
  rw [h1]
  show (opacityRender (createOpacityPulsingDot false false) 50 50).changed = true
  rw [opacityRender_active _ _ _ (by norm_num [createOpacityPulsingDot]) rfl]

/-- C1 (amended): in each throttling variant (low-frame-rate 100 ms,
pre-rendered 100 ms, opacity 50 ms), a render() call strictly less than the
interval after the last accepted tick performs no drawing work, leaves the
state (data buffer and timestamp included) unchanged, triggers no repaint
and returns false; and when the first of two calls within the interval is
itself admitted by the gate, the second call returns false. -/
theorem C1_throttle_gate (getImageData : List DrawOp → Fin bufLen → ℕ) :
    (∀ (d : LFRDot) (now tNow : ℚ), now - d.lastUpdate < 100 →
        lfrRender getImageData d now tNow = ⟨d, false, false, []⟩) ∧
    (∀ (d : PreDot) (now : ℚ), now - d.lastUpdate < 100 →
        preRender d now = ⟨d, false, false, []⟩) ∧
    (∀ (d : OpacityDot) (now tNow : ℚ), now - d.lastUpdate < 50 →
        opacityRender d now tNow = ⟨d, false, false, []⟩) ∧
    (∀ (d : LFRDot) (n1 t1 n2 t2 : ℚ), ¬ n1 - d.lastUpdate < 100 → n2 - n1 < 100 →
        (lfrRender getImageData (lfrRender getImageData d n1 t1).state n2 t2).changed
          = false) ∧
    (∀ (d : PreDot) (n1 n2 : ℚ), ¬ n1 - d.lastUpdate < 100 → n2 - n1 < 100 →
        (preRender (preRender d n1).state n2).changed = false) ∧
    (∀ (d : OpacityDot) (n1 t1 n2 t2 : ℚ), ¬ n1 - d.lastUpdate < 50 → n2 - n1 < 50 →
        (opacityRender (opacityRender d n1 t1).state n2 t2).changed = false) := by
  refine ⟨fun d now tNow h => lfrRender_throttled getImageData d now tNow h,
          fun d now h => preRender_throttled d now h,
          fun d now tNow h => opacityRender_throttled d now tNow h,
          fun d n1 t1 n2 t2 h1 h2 => ?_,
          fun d n1 n2 h1 h2 => ?_,
          fun d n1 t1 n2 t2 h1 h2 => ?_⟩
  · rw [lfrRender_throttled getImageData _ n2 t2
      (by rw [lfrRender_state_lastUpdate getImageData d n1 t1 h1]; exact h2)]
  · rw [preRender_throttled _ n2
      (by rw [preRender_state_lastUpdate d n1 h1]; exact h2)]
  · rw [opacityRender_throttled _ n2 t2
      (by rw [opacityRender_state_lastUpdate d n1 t1 h1]; exact h2)]

/-- C1 witness: the gate facts instantiated on freshly constructed markers
at concrete clock values. -/
theorem C1_throttle_gate_witness :
    (lfrRender (fun _ _ => 0) (createLowFrameRatePulsingDot false false) 99 99
      = ⟨createLowFrameRatePulsingDot false false, false, false, []⟩) ∧
    (preRender (createPreRenderedPulsingDot false false) 99
      = ⟨createPreRenderedPulsingDot false false, false, false, []⟩) ∧
    (opacityRender (createOpacityPulsingDot false false) 49 49
      = ⟨createOpacityPulsingDot false false, false, false, []⟩) ∧
    (opacityRender
        (opacityRender (createOpacityPulsingDot false false) 50 50).state 99 99).changed
      = false :=
  ⟨(C1_throttle_gate (fun _ _ => 0)).1 _ 99 99 (by norm_num [createLowFrameRatePulsingDot]),
   (C1_throttle_gate (fun _ _ => 0)).2.1 _ 99 (by norm_num [createPreRenderedPulsingDot]),
   (C1_throttle_gate (fun _ _ => 0)).2.2.1 _ 49 49 (by norm_num [createOpacityPulsingDot]),
   (C1_throttle_gate (fun _ _ => 0)).2.2.2.2.2 _ 50 50 99 99
     (by norm_num [createOpacityPulsingDot]) (by norm_num)⟩

/-- C2 counterexample: the claim that, once stopPulse is set, every variant
renders no visible output fails on the low-frame-rate variant: with
stopPulse set, an admitted render still returns true, triggers a repaint,
and fills the inner circle with the fully opaque rgba(219, 55, 19, 1). -/
theorem C2_counterexample :
    (lfrRender (fun _ _ => 0)
        { createLowFrameRatePulsingDot false false with stopPulse := true } 100 100).changed
      = true ∧
    (lfrRender (fun _ _ => 0)
        { createLowFrameRatePulsingDot false false with stopPulse := true } 100 100).repaint
      = true ∧
    (lfrRender (fun _ _ => 0)
        { createLowFrameRatePulsingDot false false with stopPulse := true } 100 100).ops.get? 2
      = some (DrawOp.fillCircle (75 / 2) (75 / 2) ((75 / 2) * 0.3) ⟨219, 55, 19, 1⟩) := by
  have hg : ¬ (100 : ℚ) -
      ({ createLowFrameRatePulsingDot false false with stopPulse := true } : LFRDot).lastUpdate
        < 100 := by
    norm_num [createLowFrameRatePulsingDot]
  rw [lfrRender_admitted (fun _ _ => 0) _ 100 100 hg]
  exact ⟨rfl, rfl, rfl⟩

/-- C2 (amended): once stopPulse is set, the opacity variant's admitted
renders are no-ops that only advance the throttle timestamp and return
false; the static and CSS variants are always no-ops returning false; the
low-frame-rate variant still redraws and reports a change, rendering only
the outer circle's fill fully transparent while the inner circle keeps its
opaque fill; and the pre-rendered variant's render never consults the flag
(its result merely carries the flag through). -/
theorem C2_stop_flag (getImageData : List DrawOp → Fin bufLen → ℕ) :
    (∀ (d : OpacityDot) (now tNow : ℚ), d.stopPulse = true → ¬ now - d.lastUpdate < 50 →
        opacityRender d now tNow = ⟨{ d with lastUpdate := now }, false, false, []⟩) ∧
    (∀ d : StaticDot, staticRender d = ⟨d, false, false, []⟩) ∧
    (∀ d : CSSDot, cssRender d = ⟨d, false, false, []⟩) ∧
    (∀ (d : LFRDot) (now tNow : ℚ), d.stopPulse = true → ¬ now - d.lastUpdate < 100 →
        (lfrRender getImageData d now tNow).changed = true ∧
        (lfrRender getImageData d now tNow).repaint = true ∧
        (lfrRender getImageData d now tNow).ops.get? 1
          = some (DrawOp.fillCircle (75 / 2) (75 / 2)
              ((75 / 2) * 0.7 * pulsePhase tNow + (75 / 2) * 0.3) ⟨219, 55, 19, 0⟩) ∧
        (lfrRender getImageData d now tNow).ops.get? 2
          = some (DrawOp.fillCircle (75 / 2) (75 / 2) ((75 / 2) * 0.3)
              (lowFrameRateColors d.isGrey d.isCarrierVehicleOnRoute).inner) ∧
        (lowFrameRateColors d.isGrey d.isCarrierVehicleOnRoute).inner.a = 1) ∧
    (∀ (d : PreDot) (now : ℚ) (b : Bool),
        preRender { d with stopPulse := b } now
          = { preRender d now with
              state := { (preRender d now).state with stopPulse := b } }) := by
  refine ⟨fun d now tNow hs hg => opacityRender_stopped d now tNow hg hs,
          fun d => rfl, fun d => rfl,
          fun d now tNow hs hg => ?_, fun d now b => ?_⟩
  · rw [lfrRender_admitted getImageData d now tNow hg]
    refine ⟨rfl, rfl, ?_, rfl, ?_⟩
    · rw [hs]
      rfl
    · cases hG : d.isGrey <;> cases hR : d.isCarrierVehicleOnRoute <;> rfl
  · obtain ⟨lu, cf, da, pf, rt, gr, sp⟩ := d
    by_cases hg : now - lu < 100
    · rw [preRender_throttled ⟨lu, cf, da, pf, rt, gr, b⟩ now hg,
          preRender_throttled ⟨lu, cf, da, pf, rt, gr, sp⟩ now hg]
    · cases pf with
      | none =>
        rw [preRender_noFrames ⟨lu, cf, da, none, rt, gr, b⟩ now hg rfl,
            preRender_noFrames ⟨lu, cf, da, none, rt, gr, sp⟩ now hg rfl]
      | some fs =>
        by_cases hl : 0 < fs.length
        · rw [preRender_cycle ⟨lu, cf, da, some fs, rt, gr, b⟩ now fs hg rfl hl,
              preRender_cycle ⟨lu, cf, da, some fs, rt, gr, sp⟩ now fs hg rfl hl]
        · rw [preRender_emptyFrames ⟨lu, cf, da, some fs, rt, gr, b⟩ now fs hg rfl hl,
              preRender_emptyFrames ⟨lu, cf, da, some fs, rt, gr, sp⟩ now fs hg rfl hl]

/-- C2 witness: the amended facts instantiated on concrete stopped markers
at clock value 100. -/
theorem C2_stop_flag_witness :
    opacityRender { createOpacityPulsingDot false false with stopPulse := true } 100 100
      = ⟨{ { createOpacityPulsingDot false false with stopPulse := true } with
            lastUpdate := 100 }, false, false, []⟩ ∧
    (lfrRender (fun _ _ => 0)
        { createLowFrameRatePulsingDot false false with stopPulse := true } 100 100).changed
      = true := by
  refine ⟨(C2_stop_flag (fun _ _ => 0)).1 _ 100 100 rfl ?_,
          ((C2_stop_flag (fun _ _ => 0)).2.2.2.1 _ 100 100 rfl ?_).1⟩
  · norm_num [createOpacityPulsingDot]
  · norm_num [createLowFrameRatePulsingDot]

/-- C9: whenever the 100 ms gate admits a tick, the low-frame-rate render
redraws (its data is overwritten with the rasterized draw calls), triggers
the host repaint and returns true even when stopPulse is set; under
stopPulse only the outer circle's fill is the fully transparent
rgba(219, 55, 19, 0), while the inner circle is still filled with the
selected inner color, whose alpha is 1, and stroked. -/
theorem C9_lfr_admitted_renders (getImageData : List DrawOp → Fin bufLen → ℕ)
    (d : LFRDot) (now tNow : ℚ) (hg : ¬ now - d.lastUpdate < 100) :
    (lfrRender getImageData d now tNow).changed = true ∧
    (lfrRender getImageData d now tNow).repaint = true ∧
    (lfrRender getImageData d now tNow).state.data
      = List.ofFn (getImageData (lfrOps d.stopPulse (pulsePhase tNow)
          (lowFrameRateColors d.isGrey d.isCarrierVehicleOnRoute))) ∧
    (lfrRender getImageData d now tNow).ops
      = lfrOps d.stopPulse (pulsePhase tNow)
          (lowFrameRateColors d.isGrey d.isCarrierVehicleOnRoute) ∧
    (d.stopPulse = true →
      (lfrRender getImageData d now tNow).ops.get? 1
        = some (DrawOp.fillCircle (75 / 2) (75 / 2)
            ((75 / 2) * 0.7 * pulsePhase tNow + (75 / 2) * 0.3) ⟨219, 55, 19, 0⟩)) ∧
    (lfrRender getImageData d now tNow).ops.get? 2
      = some (DrawOp.fillCircle (75 / 2) (75 / 2) ((75 / 2) * 0.3)
          (lowFrameRateColors d.isGrey d.isCarrierVehicleOnRoute).inner) ∧
    (lowFrameRateColors d.isGrey d.isCarrierVehicleOnRoute).inner.a = 1 ∧
    (lfrRender getImageData d now tNow).ops.get? 3
      = some (DrawOp.strokeCircle (75 / 2) (75 / 2) ((75 / 2) * 0.3)
          (lowFrameRateColors d.isGrey d.isCarrierVehicleOnRoute).stroke 2) := by
  have hE := lfrRender_admitted getImageData d now tNow hg
  refine ⟨by rw [hE], by rw [hE], by rw [hE], by rw [hE],
          fun hs => by rw [hE, hs]; rfl, by rw [hE]; rfl, ?_, by rw [hE]; rfl⟩
  cases d.isGrey <;> cases d.isCarrierVehicleOnRoute <;> rfl

/-- C9 witness: the admitted stopped render evaluated on a concrete
marker. -/
theorem C9_lfr_admitted_renders_witness :
    (lfrRender (fun _ _ => 0)
        { createLowFrameRatePulsingDot true false with stopPulse := true } 100 100).changed
      = true ∧
    (lfrRender (fun _ _ => 0)
        { createLowFrameRatePulsingDot true false with stopPulse := true } 100 100).ops.get? 1
      = some (DrawOp.fillCircle (75 / 2) (75 / 2)
          ((75 / 2) * 0.7 * pulsePhase 100 + (75 / 2) * 0.3) ⟨219, 55, 19, 0⟩) ∧
    (lowFrameRateColors
        ({ createLowFrameRatePulsingDot true false with stopPulse := true } : LFRDot).isGrey
        ({ createLowFrameRatePulsingDot true false with
            stopPulse := true } : LFRDot).isCarrierVehicleOnRoute).inner.a = 1 := by
  have hg : ¬ (100 : ℚ) -
      ({ createLowFrameRatePulsingDot true false with stopPulse := true } : LFRDot).lastUpdate
        < 100 := by
    norm_num [createLowFrameRatePulsingDot]
  exact ⟨(C9_lfr_admitted_renders (fun _ _ => 0) _ 100 100 hg).1,
         (C9_lfr_admitted_renders (fun _ _ => 0) _ 100 100 hg).2.2.2.2.1 rfl,
         (C9_lfr_admitted_renders (fun _ _ => 0) _ 100 100 hg).2.2.2.2.2.2.1⟩

/-- Frame index after k admitted ticks: it advances by one modulo the frame
count on each tick, hence totals (start + k) mod count. -/
theorem preRenderSteps_currentFrame (fs : List (List ℕ)) (hl : 0 < fs.length) (k : ℕ) :
    ∀ d : PreDot, d.preRenderedFrames = some fs → d.currentFrame < fs.length →
      (preRenderSteps d k).currentFrame = (d.currentFrame + k) % fs.length := by
  induction k with
  | zero =>
    intro d _ hcf
    simpa [preRenderSteps] using (Nat.mod_eq_of_lt hcf).symm
  | succ k ih =>
    intro d hd hcf
    have hg : ¬ d.lastUpdate + 100 - d.lastUpdate < 100 := by
      intro h
      linarith
    have hstep := preRender_cycle d (d.lastUpdate + 100) fs hg hd hl
    have hih := ih
      { d with lastUpdate := d.lastUpdate + 100
               data := fs.getD d.currentFrame []
               currentFrame := (d.currentFrame + 1) % fs.length }
      hd (Nat.mod_lt (d.currentFrame + 1) hl)
    show (preRenderSteps (preRender d (d.lastUpdate + 100)).state k).currentFrame
        = (d.currentFrame + (k + 1)) % fs.length
    rw [hstep]
    show (preRenderSteps
        { d with lastUpdate := d.lastUpdate + 100
                 data := fs.getD d.currentFrame []
                 currentFrame := (d.currentFrame + 1) % fs.length } k).currentFrame
      = (d.currentFrame + (k + 1)) % fs.length
    rw [hih]
    show ((d.currentFrame + 1) % fs.length + k) % fs.length
        = (d.currentFrame + (k + 1)) % fs.length
    rw [Nat.mod_add_mod]
    congr 1
    omega

/-- C3: in the pre-rendered variant, an admitted tick with frames available
copies the frame at the current index into data, advances the index by
exactly one modulo the number of frames and reports a change; consequently,
starting at frame 0, a run of admitted ticks is back at index 0 after
exactly N ticks (and at no earlier positive count). -/
theorem C3_frame_cycling (d : PreDot) (fs : List (List ℕ)) (N : ℕ)
    (hf : d.preRenderedFrames = some fs) (hN : fs.length = N) (hpos : 0 < N) :
    (∀ now : ℚ, ¬ now - d.lastUpdate < 100 →
      ∀ h : d.currentFrame < N,
        (preRender d now).state.data = fs.get ⟨d.currentFrame, hN ▸ h⟩ ∧
        (preRender d now).state.currentFrame = (d.currentFrame + 1) % N ∧
        (preRender d now).changed = true ∧
        (preRender d now).repaint = true) ∧
    (d.currentFrame = 0 →
      (∀ k : ℕ, (preRenderSteps d k).currentFrame = k % N) ∧
      (preRenderSteps d N).currentFrame = 0 ∧
      ∀ k : ℕ, 0 < k → k < N → (preRenderSteps d k).currentFrame ≠ 0) := by
  have hlen : 0 < fs.length := hN ▸ hpos
  constructor
  · intro now hg h
    have hcycle := preRender_cycle d now fs hg hf hlen
    rw [hcycle]
    refine ⟨?_, by rw [hN], rfl, rfl⟩
    show fs.getD d.currentFrame [] = fs.get ⟨d.currentFrame, hN ▸ h⟩
    rw [List.getD_eq_getElem fs [] (hN ▸ h), List.get_eq_getElem]
  · intro h0
    have hall : ∀ k : ℕ, (preRenderSteps d k).currentFrame = k % N := by
      intro k
      have := preRenderSteps_currentFrame fs hlen k d hf (by rw [h0]; exact hlen)
      rw [h0] at this
      rw [this, hN]
      ring_nf
    refine ⟨hall, ?_, ?_⟩
    · rw [hall N, Nat.mod_self]
    · intro k hk1 hk2
      rw [hall k, Nat.mod_eq_of_lt hk2]
      omega

/-- C3 witness: a marker holding two concrete frames, run for one admitted
tick and for full cycles. -/
theorem C3_frame_cycling_witness :
    (preRender
        { createPreRenderedPulsingDot false false with
            preRenderedFrames := some [[7], [9]] } 100).state.data = [7] ∧
    (preRenderSteps
        { createPreRenderedPulsingDot false false with
            preRenderedFrames := some [[7], [9]] } 2).currentFrame = 0 ∧
    (preRenderSteps
        { createPreRenderedPulsingDot false false with
            preRenderedFrames := some [[7], [9]] } 1).currentFrame ≠ 0 := by
  have hC := C3_frame_cycling
    { createPreRenderedPulsingDot false false with preRenderedFrames := some [[7], [9]] }
    [[7], [9]] 2 rfl rfl (by norm_num)
  refine ⟨?_, (hC.2 rfl).2.1, (hC.2 rfl).2.2 1 (by norm_num) (by norm_num)⟩
  have h1 := (hC.1 100 (by norm_num [createPreRenderedPulsingDot]) (by norm_num [createPreRenderedPulsingDot])).1
  simpa using h1

/-- C7: every variant's data buffer has width*height*4 bytes at
construction, and every modelled onAdd and render call preserves that
length, whether or not it reports a change.  For the pre-rendered render
the hypotheses record the ImageData contract (each stored frame has
width*height*4 entries, and the frame index is in range when frames
exist), which every reachable state satisfies. -/
theorem C7_buffer_size (getImageData : List DrawOp → Fin bufLen → ℕ) :
    (∀ r g : Bool,
      (createStaticPulsingDot r g).data.length = bufLen ∧
      (createLowFrameRatePulsingDot r g).data.length = bufLen ∧
      (createPreRenderedPulsingDot r g).data.length = bufLen ∧
      (createOpacityPulsingDot r g).data.length = bufLen ∧
      (createCSSPulsingDot r g).data.length = bufLen) ∧
    (∀ d : StaticDot, (staticRender d).state.data.length = d.data.length) ∧
    (∀ d : CSSDot, (cssRender d).state.data.length = d.data.length) ∧
    (∀ d : LFRDot, (lfrOnAdd d).data.length = d.data.length) ∧
    (∀ (d : LFRDot) (now tNow : ℚ), d.data.length = bufLen →
        (lfrRender getImageData d now tNow).state.data.length = bufLen) ∧
    (∀ d : PreDot, (preOnAdd d).1.data.length = d.data.length) ∧
    (∀ (d : PreDot) (now : ℚ), d.data.length = bufLen →
        (∀ fs, d.preRenderedFrames = some fs →
          (∀ f ∈ fs, f.length = bufLen) ∧ (0 < fs.length → d.currentFrame < fs.length)) →
        (preRender d now).state.data.length = bufLen) ∧
    (∀ d : OpacityDot, (opacityOnAdd d).1.data.length = d.data.length) ∧
    (∀ (d : OpacityDot) (now tNow : ℚ), d.data.length = bufLen →
        (opacityRender d now tNow).state.data.length = bufLen) := by
  refine ⟨?_, fun d => rfl, fun d => rfl, fun d => rfl, ?_, fun d => rfl, ?_, fun d => rfl, ?_⟩
  · intro r g
    refine ⟨?_, ?_, ?_, ?_, ?_⟩ <;>
      simp [createStaticPulsingDot, createLowFrameRatePulsingDot,
        createPreRenderedPulsingDot, createOpacityPulsingDot, createCSSPulsingDot]
  · intro d now tNow h
    by_cases hg : now - d.lastUpdate < 100
    · rw [lfrRender_throttled getImageData d now tNow hg]
      exact h
    · have hdata : (lfrRender getImageData d now tNow).state.data
          = List.ofFn (getImageData (lfrOps d.stopPulse (pulsePhase tNow)
              (lowFrameRateColors d.isGrey d.isCarrierVehicleOnRoute))) := by
        rw [lfrRender_admitted getImageData d now tNow hg]
      rw [hdata, List.length_ofFn]
  · intro d now h hframes
    by_cases hg : now - d.lastUpdate < 100
    · rw [preRender_throttled d now hg]
      exact h
    · cases hf : d.preRenderedFrames with
      | none =>
        rw [preRender_noFrames d now hg hf]
        exact h
      | some fs =>
        by_cases hl : 0 < fs.length
        · rw [preRender_cycle d now fs hg hf hl]
          have hcf : d.currentFrame < fs.length := (hframes fs hf).2 hl
          show (fs.getD d.currentFrame []).length = bufLen
          rw [List.getD_eq_getElem fs [] hcf]
          exact (hframes fs hf).1 _ (List.getElem_mem hcf)
        · rw [preRender_emptyFrames d now fs hg hf hl]
          exact h
  · intro d now tNow h
    by_cases hg : now - d.lastUpdate < 50
    · rw [opacityRender_throttled d now tNow hg]
      exact h
    · cases hs : d.stopPulse
      · have hdata : (opacityRender d now tNow).state.data
            = List.ofFn (applyOpacityFn d.canvas (opacityValue (pulsePhase tNow))) := by
          rw [opacityRender_active d now tNow hg hs]
        rw [hdata, List.length_ofFn]
      · rw [opacityRender_stopped d now tNow hg hs]
        exact h

/-- C7 witness: the length facts instantiated on freshly constructed
markers and concrete admitted render calls. -/
theorem C7_buffer_size_witness :
    (createStaticPulsingDot false false).data.length = bufLen ∧
    (lfrRender (fun _ _ => 0)
        (createLowFrameRatePulsingDot false false) 100 100).state.data.length = bufLen ∧
    (preRender (createPreRenderedPulsingDot false false) 100).state.data.length = bufLen ∧
    (opacityRender (createOpacityPulsingDot false false) 100 100).state.data.length
      = bufLen := by
  refine ⟨((C7_buffer_size (fun _ _ => 0)).1 false false).1,
    (C7_buffer_size (fun _ _ => 0)).2.2.2.2.1 _ 100 100 ?_,
    (C7_buffer_size (fun _ _ => 0)).2.2.2.2.2.2.1 _ 100 ?_ ?_,
    (C7_buffer_size (fun _ _ => 0)).2.2.2.2.2.2.2.2 _ 100 100 ?_⟩
  · simp [createLowFrameRatePulsingDot]
  · simp [createPreRenderedPulsingDot]
  · intro fs h
    simp [createPreRenderedPulsingDot] at h
  · simp [createOpacityPulsingDot]

/-- Round half to even never falls below the floor. -/
theorem roundHalfEven_ge_floor (x : ℝ) : ⌊x⌋ ≤ roundHalfEven x := by
  unfold roundHalfEven
  split_ifs <;> omega

/-- Round half to even never exceeds the floor plus one. -/
theorem roundHalfEven_le_floor_add_one (x : ℝ) : roundHalfEven x ≤ ⌊x⌋ + 1 := by
  unfold roundHalfEven
  split_ifs <;> omega

/-- Round half to even is monotone. -/
theorem roundHalfEven_mono {x y : ℝ} (h : x ≤ y) : roundHalfEven x ≤ roundHalfEven y := by
  rcases lt_or_eq_of_le (Int.floor_le_floor h) with hf | hf
  · have h1 := roundHalfEven_le_floor_add_one x
    have h2 := roundHalfEven_ge_floor y
    omega
  · unfold roundHalfEven
    rw [← hf]
    split_ifs <;> first | omega | (exfalso; linarith)

/-- The Uint8ClampedArray store is monotone. -/
theorem jsClampU8_mono {x y : ℝ} (h : x ≤ y) : jsClampU8 x ≤ jsClampU8 y := by
  unfold jsClampU8
  split_ifs with h1 h2 h3 h4 h5 h6
  any_goals exact Nat.zero_le _
  any_goals (exfalso; linarith)
  · exact le_refl 255
  · have hx255 : x < 255 := not_le.mp h4
    have hfl : ⌊x⌋ < 255 := by
      have : (⌊x⌋ : ℝ) ≤ x := Int.floor_le x
      exact_mod_cast lt_of_le_of_lt this hx255
    have hr := roundHalfEven_le_floor_add_one x
    exact Int.toNat_le.mpr (by omega)
  · exact Int.toNat_le_toNat (roundHalfEven_mono h)

/-- The sine-derived opacity factor is non-increasing across the fade-out
half-cycle (phases between 1/2 and 1 of the 2-second period). -/
theorem opacityValue_antitone {t1 t2 : ℚ} (h1 : (1 : ℚ) / 2 ≤ t1) (h12 : t1 ≤ t2)
    (h2 : t2 ≤ 1) : opacityValue t2 ≤ opacityValue t1 := by
  unfold opacityValue
  have h1R : ((1 / 2 : ℚ) : ℝ) ≤ (t1 : ℝ) := by exact_mod_cast h1
  push_cast at h1R
  have h12R : (t1 : ℝ) ≤ (t2 : ℝ) := by exact_mod_cast h12
  have h2R : (t2 : ℝ) ≤ 1 := by exact_mod_cast h2
  have hpi := Real.pi_pos
  have hs : Real.sin ((t2 : ℝ) * Real.pi) ≤ Real.sin ((t1 : ℝ) * Real.pi) := by
    have e1 : (t1 : ℝ) * Real.pi = Real.pi - (1 - (t1 : ℝ)) * Real.pi := by ring
    have e2 : (t2 : ℝ) * Real.pi = Real.pi - (1 - (t2 : ℝ)) * Real.pi := by ring
    rw [e1, e2, Real.sin_pi_sub, Real.sin_pi_sub]
    have hb2 : (1 - (t2 : ℝ)) * Real.pi ≤ Real.pi / 2 := by nlinarith
    have hb0 : (0 : ℝ) ≤ (1 - (t2 : ℝ)) * Real.pi := by nlinarith
    have hb1 : (1 - (t1 : ℝ)) * Real.pi ≤ Real.pi / 2 := by nlinarith
    have hb1l : (0 : ℝ) ≤ (1 - (t1 : ℝ)) * Real.pi := by nlinarith
    have harg : (1 - (t2 : ℝ)) * Real.pi ≤ (1 - (t1 : ℝ)) * Real.pi := by nlinarith
    exact Real.strictMonoOn_sin.monotoneOn
      ⟨by linarith, hb2⟩ ⟨by linarith, hb1⟩ harg
  linarith

/-- C5: with stopPulse clear, two consecutive admitted opacity renders whose
phases both lie in the fade-out half-cycle (phase in [1/2, 1) of the
2-second period, the later tick at the later phase) produce buffers whose
bytes — the alpha bytes in particular — are pointwise non-increasing from
the first tick to the second. -/
theorem C5_opacity_monotone (d : OpacityDot) (n1 tn1 n2 tn2 : ℚ)
    (hstop : d.stopPulse = false)
    (hg1 : ¬ n1 - d.lastUpdate < 50) (hg2 : ¬ n2 - n1 < 50)
    (hh1 : (1 : ℚ) / 2 ≤ pulsePhase tn1)
    (hh12 : pulsePhase tn1 ≤ pulsePhase tn2)
    (hh2 : pulsePhase tn2 < 1) :
    (opacityRender d n1 tn1).state.data
      = List.ofFn (applyOpacityFn d.canvas (opacityValue (pulsePhase tn1))) ∧
    (opacityRender (opacityRender d n1 tn1).state n2 tn2).state.data
      = List.ofFn (applyOpacityFn d.canvas (opacityValue (pulsePhase tn2))) ∧
    ∀ i : Fin bufLen,
      applyOpacityFn d.canvas (opacityValue (pulsePhase tn2)) i
        ≤ applyOpacityFn d.canvas (opacityValue (pulsePhase tn1)) i := by
  have hE1 := opacityRender_active d n1 tn1 hg1 hstop
  have hs1 : (opacityRender d n1 tn1).state.stopPulse = false := by
    rw [hE1]
    exact hstop
  have hc1 : (opacityRender d n1 tn1).state.canvas = d.canvas := by rw [hE1]
  have hl1 : (opacityRender d n1 tn1).state.lastUpdate = n1 := by rw [hE1]
  have hg2' : ¬ n2 - (opacityRender d n1 tn1).state.lastUpdate < 50 := by
    rw [hl1]
    exact hg2
  have hE2 := opacityRender_active (opacityRender d n1 tn1).state n2 tn2 hg2' hs1
  refine ⟨by rw [hE1], by rw [hE2, hc1], ?_⟩
  intro i
  have hop := opacityValue_antitone hh1 hh12 (le_of_lt hh2)
  simp only [applyOpacityFn]
  by_cases hmod : (i : ℕ) % 4 = 3
  · rw [if_pos hmod, if_pos hmod]
    exact jsClampU8_mono (mul_le_mul_of_nonneg_left hop (Nat.cast_nonneg _))
  · rw [if_neg hmod, if_neg hmod]

/-- C5 witness: one fresh marker run at clock values 1000 then 1600
(phases 1/2 and 4/5 of the 2-second cycle). -/
theorem C5_opacity_monotone_witness :
    ((1 : ℚ) / 2 ≤ pulsePhase 1000) ∧ (pulsePhase 1000 ≤ pulsePhase 1600) ∧
    (pulsePhase 1600 < 1) ∧
    ∀ i : Fin bufLen,
      applyOpacityFn (createOpacityPulsingDot false false).canvas
          (opacityValue (pulsePhase 1600)) i
        ≤ applyOpacityFn (createOpacityPulsingDot false false).canvas
            (opacityValue (pulsePhase 1000)) i := by
  have h := C5_opacity_monotone (createOpacityPulsingDot false false) 1000 1000 1600 1600
    rfl (by norm_num [createOpacityPulsingDot]) (by norm_num)
    (by norm_num [pulsePhase, jsMod]) (by norm_num [pulsePhase, jsMod])
    (by norm_num [pulsePhase, jsMod])
  exact ⟨by norm_num [pulsePhase, jsMod], by norm_num [pulsePhase, jsMod],
    by norm_num [pulsePhase, jsMod], h.2.2⟩

/-- C10: an admitted non-stopped opacity render leaves the backing canvas
untouched and rebuilds data from the canvas pixels, changing only the bytes
at indices congruent to 3 mod 4 (the alpha bytes), each becoming the canvas
alpha scaled by this tick's single sine-derived factor; hence a second
admitted tick computes its buffer from the same canvas, independent of the
first tick (no compounding). -/
theorem C10_opacity_alpha_only (d : OpacityDot) (now tNow n2 t2 : ℚ)
    (hg : ¬ now - d.lastUpdate < 50) (hstop : d.stopPulse = false) :
    (opacityRender d now tNow).state.canvas = d.canvas ∧
    (opacityRender d now tNow).state.data
      = List.ofFn (applyOpacityFn d.canvas (opacityValue (pulsePhase tNow))) ∧
    (∀ i : Fin bufLen, (i : ℕ) % 4 ≠ 3 →
      applyOpacityFn d.canvas (opacityValue (pulsePhase tNow)) i = d.canvas i) ∧
    (∀ i : Fin bufLen, (i : ℕ) % 4 = 3 →
      applyOpacityFn d.canvas (opacityValue (pulsePhase tNow)) i
        = jsClampU8 ((d.canvas i : ℝ) * opacityValue (pulsePhase tNow))) ∧
    (¬ n2 - now < 50 →
      (opacityRender (opacityRender d now tNow).state n2 t2).state.data
        = List.ofFn (applyOpacityFn d.canvas (opacityValue (pulsePhase t2)))) := by
  have hE := opacityRender_active d now tNow hg hstop
  have hc : (opacityRender d now tNow).state.canvas = d.canvas := by rw [hE]
  refine ⟨hc, by rw [hE], ?_, ?_, ?_⟩
  · intro i hi
    simp only [applyOpacityFn]
    rw [if_neg hi]
  · intro i hi
    simp only [applyOpacityFn]
    rw [if_pos hi]
  · intro hg2
    have hs1 : (opacityRender d now tNow).state.stopPulse = false := by
      rw [hE]
      exact hstop
    have hl1 : (opacityRender d now tNow).state.lastUpdate = now := by rw [hE]
    have hg2' : ¬ n2 - (opacityRender d now tNow).state.lastUpdate < 50 := by
      rw [hl1]
      exact hg2
    have hE2 := opacityRender_active (opacityRender d now tNow).state n2 t2 hg2' hs1
    rw [hE2, hc]

/-- C10 witness: a fresh marker run at clock values 1000 then 1600. -/
theorem C10_opacity_alpha_only_witness :
    (opacityRender (createOpacityPulsingDot false false) 1000 1000).state.canvas
      = (createOpacityPulsingDot false false).canvas ∧
    (opacityRender
        (opacityRender (createOpacityPulsingDot false false) 1000 1000).state
        1600 1600).state.data
      = List.ofFn (applyOpacityFn (createOpacityPulsingDot false false).canvas
          (opacityValue (pulsePhase 1600))) := by
  have h := C10_opacity_alpha_only (createOpacityPulsingDot false false) 1000 1000 1600 1600
    (by norm_num [createOpacityPulsingDot]) rfl
  exact ⟨h.1, h.2.2.2.2 (by norm_num)⟩

end PulsingDot
